import Mathlib

/-!
Verification development for the ghl_tui repository,
covering the rate-limited HTTP client (src/ghl/client.py) and the
configuration / profile store (src/ghl/config.py).

Conventions of the shallow embedding:
* Python `int` is `Int`; Python `float` values that carry epoch seconds or
  durations are modelled as `ℚ` (exact arithmetic; no claim here depends on
  binary floating-point rounding).
* Parsed JSON documents are `JValue`; a Python value of `None` coincides with
  JSON null here (as it does for `json.loads` output and `dict.get` misses).
* Fallible Python calls (`int(...)`, `float(...)`) are `Option`-valued parses;
  an exception escaping a modelled function is an explicit constructor.
* `httpx.Headers` is an association list of (name, value) pairs with names
  in canonical lowercase form, matching httpx's case-insensitive access
  (the source always queries lowercase names).
-/

/-- Parsed JSON values, as produced by Python's `json.loads` /
`response.json()`.  Numbers are modelled as integers (the fields the code
reads are integral counters; none of the claims touch fractional JSON
numbers). -/
inductive JValue where
  | jnull : JValue
  | jbool (b : Bool) : JValue
  | jnum (n : Int) : JValue
  | jstr (s : String) : JValue
  | jarr (xs : List JValue) : JValue
  | jobj (fs : List (String × JValue)) : JValue

open JValue

/-- Python truthiness of a parsed-JSON value (`bool(x)`): `None`, `False`,
`0`, `""`, `[]`, `{}` are falsy, everything else truthy. -/
def jtruthy : JValue → Bool
  | jnull => false
  | jbool b => b
  | jnum n => n != 0
  | jstr s => s != ""
  | jarr xs => !xs.isEmpty
  | jobj fs => !fs.isEmpty

/-- Lookup of a key in a parsed JSON object (Python `dict` access; keys of a
parsed object are unique, so first match is the match). -/
def jget (fs : List (String × JValue)) (k : String) : Option JValue :=
  (fs.find? (fun p => p.1 == k)).map Prod.snd

/-- Python `dict.get(k)`: the value, or `None` when the key is absent. -/
def pyGet (fs : List (String × JValue)) (k : String) : JValue :=
  (jget fs k).getD jnull

/-- Python `a or b` on parsed-JSON values: `a` when truthy, else `b`. -/
def pyOr (a b : JValue) : JValue :=
  if jtruthy a then a else b

mutual

/-- Python `str(...)` of a parsed-JSON value (`repr`-style rendering of the
dict/list structure `json.loads` produced).  Adequate for strings without
quotes or escape characters, which is all the development evaluates it on. -/
def pyRepr : JValue → String
  | jnull => "None"
  | jbool true => "True"
  | jbool false => "False"
  | jnum n => toString n
  | jstr s => "\x27" ++ s ++ "\x27"
  | jarr xs => "[" ++ ", ".intercalate (pyReprList xs) ++ "]"
  | jobj fs => "\x7b" ++ ", ".intercalate (pyReprFields fs) ++ "\x7d"

/-- Renderings of the elements of a parsed-JSON array, in order. -/
def pyReprList : List JValue → List String
  | [] => []
  | x :: xs => pyRepr x :: pyReprList xs

/-- Renderings of the key/value pairs of a parsed-JSON object, in order. -/
def pyReprFields : List (String × JValue) → List String
  | [] => []
  | p :: ps => ("\x27" ++ p.1 ++ "\x27: " ++ pyRepr p.2) :: pyReprFields ps

end

/-- HTTP response headers (`httpx.Headers`): name/value pairs. -/
def Headers := List (String × String)

/-- Header lookup (`headers.get(name)`).  httpx access is case-insensitive;
the embedding stipulates header names in canonical lowercase form (which is
what the source always queries), so lookup is plain key equality. -/
def hget (hs : Headers) (k : String) : Option String :=
  (hs.find? (fun p => p.1 == k)).map Prod.snd

/-- Python `a or b` over `headers.get` results: an absent header or an empty
string is falsy and falls through to `b`. -/
def pyOrStr (a : Option String) (b : Option String) : Option String :=
  match a with
  | some s => if s = "" then b else some s
  | none => b

/-- Decimal value of a digit string. -/
def digitsVal (ds : List Char) : Nat :=
  ds.foldl (fun a c => a * 10 + (c.toNat - 48)) 0

/-- Python `int(s)` on a header string: an optional sign followed by digits;
`none` models the `ValueError` it raises on anything else (surrounding
whitespace and underscore separators are outside the modelled fragment). -/
def pyInt (s : String) : Option Int :=
  match s.data with
  | [] => none
  | '-' :: ds =>
      if !ds.isEmpty && ds.all Char.isDigit then some (-(digitsVal ds : Int)) else none
  | '+' :: ds =>
      if !ds.isEmpty && ds.all Char.isDigit then some (digitsVal ds : Int) else none
  | ds =>
      if ds.all Char.isDigit then some (digitsVal ds : Int) else none

/-- Python `float(s)` restricted to plain decimal notation
(`[sign]digits[.digits]`); `none` models `ValueError`.  Exponent and special
forms are outside the modelled fragment. -/
def pyFloat (s : String) : Option ℚ :=
  let (neg, ds) :=
    match s.data with
    | '-' :: rest => (true, rest)
    | '+' :: rest => (false, rest)
    | rest => (false, rest)
  let intPart := ds.takeWhile (fun c => c != '.')
  let rest := ds.dropWhile (fun c => c != '.')
  let frac : Option (List Char) :=
    match rest with
    | [] => some []
    | _ :: fs => if fs.all Char.isDigit then some fs else none
  match frac with
  | none => none
  | some fs =>
      if intPart.all Char.isDigit && !(intPart.isEmpty && fs.isEmpty) then
        let v : ℚ := (digitsVal intPart : ℚ) + (digitsVal fs : ℚ) / (10 : ℚ) ^ fs.length
        some (if neg then -v else v)
      else none

/-- `RateLimitInfo` (client.py): rate limit information from API response
headers, with the class's field defaults. -/
structure RateLimitInfo where
  limit : Int := 100
  remaining : Int := 100
  reset : Option ℚ := none
  interval_ms : Int := 10000
deriving DecidableEq

/-- `RateLimitInfo.RATE_LIMIT_HEADERS`. -/
def RATE_LIMIT_HEADERS : List String :=
  ["x-ratelimit-remaining", "x-ratelimit-max", "x-ratelimit-limit"]

/-- `RateLimitInfo.has_rate_limit_headers`: true if the response has at least
one recognized rate limit header. -/
def has_rate_limit_headers (hs : Headers) : Bool :=
  RATE_LIMIT_HEADERS.any (fun n => (hget hs n).isSome)

/-- `RateLimitInfo.from_headers`: parse rate limit info from response
headers.  `none` models the `ValueError` that `int(...)` raises on a
non-numeric header value; a malformed `x-ratelimit-reset` is swallowed by the
source's `try/except` and simply leaves `reset` unset. -/
def from_headers (hs : Headers) : Option RateLimitInfo :=
  let interval_src := pyOrStr (hget hs "x-ratelimit-interval-milliseconds")
                              (hget hs "x-ratelimit-interval-ms")
  match (match interval_src with
         | some s => pyInt s
         | none => some 10000) with
  | none => none
  | some interval_ms =>
    let reset : Option ℚ :=
      match hget hs "x-ratelimit-reset" with
      | some rv =>
          if rv = "" then none
          else match pyFloat rv with
               | some t => if t > 0 then some t else none
               | none => none
      | none => none
    match (match pyOrStr (hget hs "x-ratelimit-max") (hget hs "x-ratelimit-limit") with
           | some s => pyInt s
           | none => some 100) with
    | none => none
    | some lim =>
      match (match hget hs "x-ratelimit-remaining" with
             | some s => if s = "" then some 100 else pyInt s
             | none => some 100) with
      | none => none
      | some rem => some ⟨lim, rem, reset, interval_ms⟩

/-- An HTTP response as the client observes it: status code, headers, the
body parsed as JSON (`none` when `response.json()` would raise), and the raw
body text. -/
structure Response where
  status : Int
  headers : Headers
  body : Option JValue
  text : String

/-- `APIError` (client.py): status code, message and optional parsed body.
The message is kept as a `JValue` because the source assigns whatever object
the truthy `message`/`error` field held. -/
structure APIError where
  status_code : Int
  message : JValue
  response_body : Option JValue

/-- The exact error raised for a 429 response in `_handle_response`. -/
def err429 : APIError :=
  ⟨429, jstr "Rate limited. Please wait and try again.", none⟩

/-- Result of `_handle_rate_limit`: the client's rate-limit state after the
call, the total time slept, and whether a `ValueError` escaped (from
`int(...)` on a malformed header). -/
structure HRL where
  st : Option RateLimitInfo
  sleep : ℚ
  raised : Bool
deriving DecidableEq

/-- `self._rate_limit_info or RateLimitInfo.from_headers(response.headers)`
in the 429 branch of `_handle_rate_limit` (a `RateLimitInfo` instance is
always truthy). -/
def effective_rli429 (st : Option RateLimitInfo) (resp : Response) : Option RateLimitInfo :=
  match st with
  | some r => some r
  | none => from_headers resp.headers

/-- The 429 wait computation of `_handle_rate_limit`:
`wait = interval_ms / 1000.0`, raised to `reset - now` when `rli.reset` is
truthy (set and nonzero). -/
def wait_time (rli : RateLimitInfo) (now : ℚ) : ℚ :=
  match rli.reset with
  | some t =>
      if t ≠ 0 then max ((rli.interval_ms : ℚ) / 1000) (t - now)
      else (rli.interval_ms : ℚ) / 1000
  | none => (rli.interval_ms : ℚ) / 1000

/-- The part of `_handle_rate_limit` after the conditional header update,
acting on the (possibly updated) stored info `st1`. -/
def handle_rate_limit_tail (st1 : Option RateLimitInfo) (resp : Response) (now : ℚ) : HRL :=
  if resp.status = 429 then
    match effective_rli429 st1 resp with
    | none => ⟨st1, 0, true⟩
    | some rli => ⟨st1, wait_time rli now + 1/10, false⟩
  else
    match st1 with
    | some r => ⟨st1, if r.remaining < 5 then (1 : ℚ)/2 else 0, false⟩
    | none => ⟨st1, 0, false⟩

/-- `GHLClient._handle_rate_limit`: update stored rate limit info only when
the response carries a recognized rate-limit header, then sleep for 429s and
proactively slow down near the limit.  `now` is `time.time()` at the call. -/
def handle_rate_limit (st : Option RateLimitInfo) (resp : Response) (now : ℚ) : HRL :=
  if has_rate_limit_headers resp.headers then
    match from_headers resp.headers with
    | none => ⟨st, 0, true⟩
    | some r => handle_rate_limit_tail (some r) resp now
  else
    handle_rate_limit_tail st resp now

/-- The message/body computation of the error branch of `_handle_response`
for a body that parsed as JSON:
`(body or \x7b\x7d).get("message") or (body or \x7b\x7d).get("error") or str(body)`.
Returns `none` when that expression raises (`.get` on a truthy non-dict),
which the source's `except` clause turns into the raw-text fallback. -/
def json_error_message (b : JValue) : Option JValue :=
  match (if jtruthy b then b else jobj []) with
  | jobj fs => some (pyOr (pyGet fs "message") (pyOr (pyGet fs "error") (jstr (pyRepr b))))
  | _ => none

/-- The raw-text fallback message: `response.text or f"HTTP \x7bstatus\x7d"`. -/
def text_fallback (resp : Response) : JValue :=
  jstr (if resp.text = "" then "HTTP " ++ toString resp.status else resp.text)

/-- Message and carried body for the non-429 error branch of
`_handle_response` (lines 147-154 of client.py): body parsed and message
extracted when possible, else the raw-text fallback; `body` stays whatever
`response.json()` produced before the failure (or `None` when parsing itself
failed). -/
def error_message_body (resp : Response) : JValue × Option JValue :=
  match resp.body with
  | none => (text_fallback resp, none)
  | some b =>
      match json_error_message b with
      | some m => (m, some b)
      | none => (text_fallback resp, some b)

/-- Outcome of `_handle_response`: a returned dict, a raised `APIError`, or a
raised `ValueError` (malformed rate-limit header fed to `int(...)`). -/
inductive HROut where
  | ok (v : JValue) : HROut
  | err (e : APIError) : HROut
  | pyerr : HROut

/-- Full result of `_handle_response`: rate-limit state after the call, time
slept, and the outcome. -/
structure HRes where
  st : Option RateLimitInfo
  sleep : ℚ
  out : HROut

/-- The raise/return decision of `_handle_response` once `_handle_rate_limit`
has run (`raised` is whether it raised a `ValueError`): raise for 429 and
other 4xx/5xx, return `\x7b\x7d` for 204, the parsed JSON body otherwise, or
`\x7b"text": raw\x7d` when the body is not JSON. -/
def response_out (resp : Response) (raised : Bool) : HROut :=
  if raised then HROut.pyerr
  else if resp.status = 429 then HROut.err err429
  else if resp.status ≥ 400 then
    HROut.err ⟨resp.status, (error_message_body resp).1, (error_message_body resp).2⟩
  else if resp.status = 204 then HROut.ok (jobj [])
  else
    match resp.body with
    | some v => HROut.ok v
    | none => HROut.ok (jobj [("text", jstr resp.text)])

/-- `GHLClient._handle_response`: update rate-limit state and sleep via
`_handle_rate_limit`, then raise or return per `response_out`. -/
def handle_response (st : Option RateLimitInfo) (resp : Response) (now : ℚ) : HRes :=
  let h := handle_rate_limit st resp now
  ⟨h.st, h.sleep, response_out resp h.raised⟩

/-- Outcome of `GHLClient.request`: a returned dict, a raised `APIError`, a
raised `ValueError` (from header parsing), or the trailing
`RuntimeError("Exhausted retries")` after the loop. -/
inductive ReqOutcome where
  | ok (v : JValue) : ReqOutcome
  | apiError (e : APIError) : ReqOutcome
  | valueError : ReqOutcome
  | exhausted : ReqOutcome

/-- Trace of one `request` call: how many HTTP attempts were issued, the
sleep performed on each attempt (in order), the final rate-limit state, and
the outcome. -/
structure ReqResult where
  attempts : Nat
  sleeps : List ℚ
  st : Option RateLimitInfo
  outcome : ReqOutcome

/-- The retry loop of `GHLClient.request` (lines 203-232 of client.py).
`oracle i` is the response the i-th HTTP attempt receives together with
`time.time()` at that point; `fuel` is the number of loop iterations left,
with `attempt + fuel = max_retries` throughout. -/
def request_aux (oracle : Nat → Response × ℚ) (max_retries : Nat) :
    Nat → Nat → Option RateLimitInfo → Nat → List ℚ → ReqResult
  | _, 0, st, n, sleeps => ⟨n, sleeps.reverse, st, ReqOutcome.exhausted⟩
  | attempt, fuel+1, st, n, sleeps =>
    let resp := (oracle attempt).1
    let now := (oracle attempt).2
    let r := handle_response st resp now
    match r.out with
    | HROut.pyerr => ⟨n+1, (r.sleep :: sleeps).reverse, r.st, ReqOutcome.valueError⟩
    | HROut.ok v => ⟨n+1, (r.sleep :: sleeps).reverse, r.st, ReqOutcome.ok v⟩
    | HROut.err e =>
        if e.status_code = 429 ∧ (attempt : Int) < (max_retries : Int) - 1 then
          request_aux oracle max_retries (attempt+1) fuel r.st (n+1) (r.sleep :: sleeps)
        else ⟨n+1, (r.sleep :: sleeps).reverse, r.st, ReqOutcome.apiError e⟩

/-- `GHLClient.request`: up to `max_retries` attempts, retrying only
APIErrors with status 429 while attempts remain; a fresh client starts with
`_rate_limit_info = None`. -/
def request (oracle : Nat → Response × ℚ) (max_retries : Nat) : ReqResult :=
  request_aux oracle max_retries 0 max_retries none 0 []

/-- `ProfileModel` (config.py): a single GHL profile (token + location). -/
structure ProfileModel where
  api_token : String
  location_id : String
deriving DecidableEq

/-- In-memory profiles state: the `\x7b"active": ..., "profiles": ...\x7d`
dict managed by `ConfigManager`.  `profiles` is an association list because
Python dicts preserve insertion order; keys are unique for every dict the
store itself produces, and the update/removal operations below act on every
occurrence of a key so that they agree with dict semantics on such lists. -/
structure ProfilesData where
  active : Option String
  profiles : List (String × ProfileModel)
deriving DecidableEq

/-- Membership/lookup of a profile name (Python `name in profiles` /
`profiles.get(name)`). -/
def plookup (ps : List (String × ProfileModel)) (k : String) : Option ProfileModel :=
  (ps.find? (fun p => p.1 == k)).map Prod.snd

/-- Python `profiles[name] = value`: replace the value in place when the key
exists (keeping its position), else append. -/
def pupsert (ps : List (String × ProfileModel)) (name : String) (v : ProfileModel) :
    List (String × ProfileModel) :=
  if ps.any (fun q => q.1 == name) then
    ps.map (fun q => if q.1 == name then (name, v) else q)
  else ps ++ [(name, v)]

/-- Python `del profiles[name]`: remove the key, preserving the order of the
remaining entries. -/
def perase (ps : List (String × ProfileModel)) (name : String) :
    List (String × ProfileModel) :=
  ps.filter (fun q => q.1 != name)

/-- `ConfigManager.get_active_profile_name`: the active pointer, self-healed
to `None` unless it is truthy (set and nonempty) and names a stored profile. -/
def get_active_profile_name (d : ProfilesData) : Option String :=
  match d.active with
  | some a => if a ≠ "" ∧ (plookup d.profiles a).isSome then some a else none
  | none => none

/-- Code-point comparison of strings, as Python `<` on `str` (lexicographic
on Unicode code points). -/
def strLtB : List Char → List Char → Bool
  | [], [] => false
  | [], _ :: _ => true
  | _ :: _, [] => false
  | a :: as, b :: bs => if a < b then true else if b < a then false else strLtB as bs

/-- Insert a string into an ascending list (helper for `sorted(...)`). -/
def insortStr (s : String) : List String → List String
  | [] => [s]
  | x :: xs => if strLtB x.data s.data then x :: insortStr s xs else s :: x :: xs

/-- Python `sorted(...)` on strings, ascending. -/
def sortedKeys (l : List String) : List String :=
  l.foldr insortStr []

/-- `ConfigManager.list_profiles`: `(name, name == active)` for the sorted
profile names; the comparison uses the raw (unhealed) active pointer. -/
def list_profiles (d : ProfilesData) : List (String × Bool) :=
  (sortedKeys (d.profiles.map Prod.fst)).map (fun name => (name, d.active == some name))

/-- The active-pointer update of `add_or_update_profile`:
`if not data.get("active") or data["active"] not in profiles: data["active"] = name`,
where `profiles1` is the map after the upsert. -/
def active_after_add (a : Option String) (profiles1 : List (String × ProfileModel))
    (name : String) : Option String :=
  match a with
  | none => some name
  | some s => if s = "" ∨ (plookup profiles1 s).isNone then some name else some s

/-- `ConfigManager.add_or_update_profile`: upsert the profile, then make it
active when the current pointer is falsy or dangling.  Returns the new state
(the source mutates `self._profiles_data` and persists it). -/
def add_or_update_profile (d : ProfilesData) (name api_token location_id : String) :
    ProfilesData :=
  ⟨active_after_add d.active (pupsert d.profiles name ⟨api_token, location_id⟩) name,
   pupsert d.profiles name ⟨api_token, location_id⟩⟩

/-- `ConfigManager.remove_profile`: `none` models the `ValueError` for an
unknown name; otherwise returns the new state together with the returned
previous active pointer.  When the removed profile was active the new active
pointer is `next(iter(profiles), None)`, i.e. the first remaining name in
insertion order. -/
def remove_profile (d : ProfilesData) (name : String) :
    Option (ProfilesData × Option String) :=
  if (plookup d.profiles name).isSome then
    some (⟨if d.active = some name then ((perase d.profiles name).head?).map Prod.fst
           else d.active,
           perase d.profiles name⟩,
          d.active)
  else none

/-- A persisted JSON file as the loaders see it: missing, unreadable as JSON
(`json.loads` raises `JSONDecodeError`), or parsed to a JSON document. -/
inductive FileState where
  | absent : FileState
  | invalid : FileState
  | valid (j : JValue) : FileState

/-- The empty profiles store the loader falls back to:
`\x7b"active": None, "profiles": \x7b\x7d\x7d`. -/
def emptyProfilesData : JValue × JValue :=
  (jnull, jobj [])

/-- `ConfigManager._load_profiles_data` on the persisted file, as the pair
(raw `active` value, raw `profiles` value).  A missing file, undecodable
JSON, or any exception while shaping the data (e.g. `.get` on a non-dict
top level) yields the empty store — the source's `except` clause catches
`Exception`.  Note the `data.get("profiles") or \x7b\x7d` only replaces a
falsy `profiles` value. -/
def load_profiles_data : FileState → JValue × JValue
  | FileState.valid (jobj fs) =>
      let p := pyGet fs "profiles"
      (pyGet fs "active", if jtruthy p then p else jobj [])
  | _ => emptyProfilesData

/-- `GHLConfig` (config.py) with its field defaults. -/
structure GHLConfig where
  location_id : Option String := none
  api_version : String := "2021-07-28"
  output_format : String := "table"
deriving DecidableEq

/-- The default configuration `GHLConfig()`. -/
def defaultConfig : GHLConfig := ⟨none, "2021-07-28", "table"⟩

/-- Pydantic validation of an `Optional[str]` field: absent or null gives
`None`, a string is accepted, anything else fails validation. -/
def parse_opt_str (fs : List (String × JValue)) (k : String) : Option (Option String) :=
  match jget fs k with
  | none => some none
  | some jnull => some none
  | some (jstr s) => some (some s)
  | some _ => none

/-- Pydantic validation of a required-with-default `str` field: absent gives
the default, a string is accepted, anything else (including null) fails. -/
def parse_str (fs : List (String × JValue)) (k : String) (dflt : String) : Option String :=
  match jget fs k with
  | none => some dflt
  | some (jstr s) => some s
  | some _ => none

/-- `GHLConfig(**data)`: validate the three fields (extra keys ignored);
`none` models a pydantic `ValidationError`. -/
def parse_config (fs : List (String × JValue)) : Option GHLConfig :=
  match parse_opt_str fs "location_id", parse_str fs "api_version" "2021-07-28",
        parse_str fs "output_format" "table" with
  | some loc, some ver, some fmt => some ⟨loc, ver, fmt⟩
  | _, _, _ => none

/-- `ConfigManager._load_config`: any failure (missing file, bad JSON, a
non-dict document, a validation error) gives `GHLConfig()`. -/
def load_config : FileState → GHLConfig
  | FileState.valid (jobj fs) => (parse_config fs).getD defaultConfig
  | _ => defaultConfig

/-- The legacy credentials file as `get_token` uses it.  `unreadable`
collapses undecodable JSON and a non-dict document (both end in the `except
... pass` path); `readable tok` is a JSON object whose `api_token` entry is
the string `tok`, or absent/null (`tok = none`) — non-string token values
are outside the modelled fragment. -/
inductive CredFile where
  | absent : CredFile
  | unreadable : CredFile
  | readable (tok : Option String) : CredFile

/-- The keyring backend as `get_token` uses it: `failure` models an
`ImportError`/backend exception, `value r` a completed
`keyring.get_password` call returning `r`. -/
inductive KeyringState where
  | failure : KeyringState
  | value (r : Option String) : KeyringState

/-- Everything `ConfigManager.get_token` consults besides the profiles
state: the `GHL_API_TOKEN` environment variable, the legacy credentials
file, and the keyring. -/
structure TokenSources where
  env_token : Option String
  cred : CredFile
  keyring : KeyringState

/-- The credentials-file and keyring part of `get_token`. -/
def get_token_tail (src : TokenSources) : Option String :=
  match src.cred with
  | CredFile.readable tok => tok
  | _ =>
      match src.keyring with
      | KeyringState.value (some t) => if t ≠ "" then some t else none
      | _ => none

/-- The part of `get_token` after the environment check: the active
profile's token when a (healed) active profile with a fetchable profile
exists, else the tail chain. -/
def get_token_after_env (src : TokenSources) (d : ProfilesData) : Option String :=
  match get_active_profile_name d with
  | some a =>
      match plookup d.profiles a with
      | some p => some p.api_token
      | none => get_token_tail src
  | none => get_token_tail src

/-- `ConfigManager.get_token` (config.py lines 183-215): environment
variable if truthy, else the active profile's token, else the credentials
file's `api_token` value whenever the file exists and is readable (even when
that value is `None`), else a truthy keyring value, else `None`. -/
def get_token (src : TokenSources) (d : ProfilesData) : Option String :=
  match src.env_token with
  | some t =>
      if t ≠ "" then some t else get_token_after_env src d
  | none => get_token_after_env src d

/-- Modelled from the spec: the token precedence chain of sections 3 and
4.1 — "env var → active profile → legacy single-credential file → OS
keyring", each source either yielding a token or missing, with `None` only
on a total miss.  This is the spec's wording, for comparison with
`get_token` above. -/
def get_token_spec (src : TokenSources) (d : ProfilesData) : Option String :=
  (match src.env_token with
   | some t => if t ≠ "" then some t else none
   | none => none) <|>
  (match get_active_profile_name d with
   | some a => (plookup d.profiles a).map ProfileModel.api_token
   | none => none) <|>
  (match src.cred with
   | CredFile.readable (some t) => some t
   | _ => none) <|>
  (match src.keyring with
   | KeyringState.value (some t) => if t ≠ "" then some t else none
   | _ => none)

theorem handle_rate_limit_tail_st (st1 : Option RateLimitInfo) (resp : Response) (now : ℚ) :
    (handle_rate_limit_tail st1 resp now).st = st1 := by
  unfold handle_rate_limit_tail
  split
  · cases effective_rli429 st1 resp <;> rfl
  · cases st1 <;> rfl

theorem handle_response_st (st : Option RateLimitInfo) (resp : Response) (now : ℚ) :
    (handle_response st resp now).st = (handle_rate_limit st resp now).st := rfl

theorem handle_response_sleep (st : Option RateLimitInfo) (resp : Response) (now : ℚ) :
    (handle_response st resp now).sleep = (handle_rate_limit st resp now).sleep := rfl

theorem handle_response_out (st : Option RateLimitInfo) (resp : Response) (now : ℚ) :
    (handle_response st resp now).out
      = response_out resp (handle_rate_limit st resp now).raised := rfl

/-- Claim C1: for every response processed by the client that lacks all
recognized rate-limit headers, the stored `RateLimitInfo` after handling the
response equals its value before handling it — it is never overwritten with
default values. -/
theorem c1_no_headers_keeps_rate_limit_state
    (st : Option RateLimitInfo) (resp : Response) (now : ℚ)
    (h : has_rate_limit_headers resp.headers = false) :
    (handle_response st resp now).st = st := by
  rw [handle_response_st]
  unfold handle_rate_limit
  rw [h]
  simp only [Bool.false_eq_true, if_false]
  exact handle_rate_limit_tail_st st resp now

theorem c1_no_headers_keeps_rate_limit_state_witness :
    has_rate_limit_headers ([("content-type", "application/json")] : Headers) = false ∧
    (handle_response (some ⟨50, 2, none, 20000⟩)
        ⟨200, [("content-type", "application/json")], some (jobj []), ""⟩ 0).st
      = some ⟨50, 2, none, 20000⟩ :=
  ⟨by decide,
   c1_no_headers_keeps_rate_limit_state (some ⟨50, 2, none, 20000⟩)
     ⟨200, [("content-type", "application/json")], some (jobj []), ""⟩ 0 (by decide)⟩

/-- Claim C10: for every response that carries at least one recognized
rate-limit header, the client replaces its entire stored `RateLimitInfo`
with the record parsed from the headers alone, in which each missing field
takes its default (limit 100, remaining 100, interval_ms 10000, reset
None) — so a partial-header response (only `x-ratelimit-max`) can raise the
tracked remaining quota back to 100. -/
theorem c10_partial_headers_replace_state :
    (∀ (st : Option RateLimitInfo) (resp : Response) (now : ℚ) (r : RateLimitInfo),
        has_rate_limit_headers resp.headers = true →
        from_headers resp.headers = some r →
        (handle_response st resp now).st = some r) ∧
    from_headers [("x-ratelimit-max", "200")] = some ⟨200, 100, none, 10000⟩ := by
  constructor
  · intro st resp now r h1 h2
    rw [handle_response_st]
    unfold handle_rate_limit
    rw [h1, h2]
    simp only [if_true]
    exact handle_rate_limit_tail_st (some r) resp now
  · rfl

theorem c10_partial_headers_replace_state_witness :
    has_rate_limit_headers ([("x-ratelimit-max", "200")] : Headers) = true ∧
    from_headers [("x-ratelimit-max", "200")] = some ⟨200, 100, none, 10000⟩ ∧
    (handle_response (some ⟨100, 1, none, 10000⟩)
        ⟨200, [("x-ratelimit-max", "200")], some (jobj []), ""⟩ 0).st
      = some ⟨200, 100, none, 10000⟩ :=
  ⟨by decide, by decide,
   c10_partial_headers_replace_state.1 (some ⟨100, 1, none, 10000⟩)
     ⟨200, [("x-ratelimit-max", "200")], some (jobj []), ""⟩ 0
     ⟨200, 100, none, 10000⟩ (by decide) (by decide)⟩

/-- Claim C5: starting from an empty profile store, adding profile "a" and
then profile "b" leaves "a" active (the first add activates it because no
active pointer existed; the later add does not change it), and
`list_profiles` returns the names sorted ascending with their active flags:
`[("a", true), ("b", false)]`. -/
theorem c5_two_adds_first_active_sorted :
    list_profiles
        (add_or_update_profile
          (add_or_update_profile ⟨none, []⟩ "a" "tok-a" "loc-a") "b" "tok-b" "loc-b")
      = [("a", true), ("b", false)] := by
  rfl


/-- The in-place replacement `pupsert` performs when the key exists. -/
def prepl (name : String) (v : ProfileModel) (q : String × ProfileModel) :
    String × ProfileModel :=
  if q.1 == name then (name, v) else q

theorem prepl_prepl (name : String) (v : ProfileModel) (q : String × ProfileModel) :
    prepl name v (prepl name v q) = prepl name v q := by
  unfold prepl
  by_cases h : q.1 == name
  · simp [h]
  · simp [h]

theorem pupsert_of_any (ps : List (String × ProfileModel)) (name : String) (v : ProfileModel)
    (h : ps.any (fun q => q.1 == name) = true) :
    pupsert ps name v = ps.map (prepl name v) := by
  unfold pupsert prepl
  rw [if_pos h]

theorem pupsert_of_not_any (ps : List (String × ProfileModel)) (name : String) (v : ProfileModel)
    (h : ps.any (fun q => q.1 == name) = false) :
    pupsert ps name v = ps ++ [(name, v)] := by
  unfold pupsert
  simp [h]

theorem any_map_prepl (ps : List (String × ProfileModel)) (name : String) (v : ProfileModel) :
    (ps.map (prepl name v)).any (fun q => q.1 == name) = ps.any (fun q => q.1 == name) := by
  induction ps with
  | nil => rfl
  | cons p ps ih =>
      simp only [List.map_cons, List.any_cons, ih]
      congr 1
      unfold prepl
      by_cases h : p.1 == name
      · simp [h]
      · simp [h]

theorem map_prepl_of_not_any (ps : List (String × ProfileModel)) (name : String)
    (v : ProfileModel) (h : ps.any (fun q => q.1 == name) = false) :
    ps.map (prepl name v) = ps := by
  induction ps with
  | nil => rfl
  | cons p ps ih =>
      simp only [List.any_cons, Bool.or_eq_false_iff] at h
      simp only [List.map_cons, ih h.2]
      congr 1
      unfold prepl
      simp [h.1]


theorem pupsert_idem (ps : List (String × ProfileModel)) (name : String) (v : ProfileModel) :
    pupsert (pupsert ps name v) name v = pupsert ps name v := by
  cases h : ps.any (fun q => q.1 == name) with
  | true =>
      rw [pupsert_of_any ps name v h,
          pupsert_of_any _ name v (by rw [any_map_prepl]; exact h),
          List.map_map]
      exact List.map_congr_left (fun q _ => prepl_prepl name v q)
  | false =>
      rw [pupsert_of_not_any ps name v h]
      rw [pupsert_of_any _ name v (by simp)]
      rw [List.map_append, map_prepl_of_not_any ps name v h]
      simp [prepl]

theorem plookup_cons_self (p : String × ProfileModel) (ps : List (String × ProfileModel))
    (k : String) (h : (p.1 == k) = true) : plookup (p :: ps) k = some p.2 := by
  simp [plookup, List.find?, h]

theorem plookup_cons_ne (p : String × ProfileModel) (ps : List (String × ProfileModel))
    (k : String) (h : (p.1 == k) = false) : plookup (p :: ps) k = plookup ps k := by
  simp [plookup, List.find?, h]

theorem plookup_map_prepl_self (ps : List (String × ProfileModel)) (name : String)
    (v : ProfileModel) (h : ps.any (fun q => q.1 == name) = true) :
    plookup (ps.map (prepl name v)) name = some v := by
  induction ps with
  | nil => simp at h
  | cons p ps ih =>
      rw [List.map_cons]
      cases hp : p.1 == name with
      | true =>
          rw [show prepl name v p = (name, v) by unfold prepl; rw [if_pos hp]]
          exact plookup_cons_self _ _ _ (by simp)
      | false =>
          rw [show prepl name v p = p by unfold prepl; simp [hp]]
          rw [plookup_cons_ne p _ name hp]
          apply ih
          simp only [List.any_cons, hp, Bool.false_or] at h
          exact h

theorem plookup_append_single (ps : List (String × ProfileModel)) (name : String)
    (v : ProfileModel) (h : ps.any (fun q => q.1 == name) = false) :
    plookup (ps ++ [(name, v)]) name = some v := by
  induction ps with
  | nil => exact plookup_cons_self _ _ _ (by simp)
  | cons p ps ih =>
      simp only [List.any_cons, Bool.or_eq_false_iff] at h
      rw [List.cons_append, plookup_cons_ne p _ name h.1]
      exact ih h.2

theorem plookup_pupsert_self (ps : List (String × ProfileModel)) (name : String)
    (v : ProfileModel) :
    plookup (pupsert ps name v) name = some v := by
  cases h : ps.any (fun q => q.1 == name) with
  | true =>
      rw [pupsert_of_any ps name v h]
      exact plookup_map_prepl_self ps name v h
  | false =>
      rw [pupsert_of_not_any ps name v h]
      exact plookup_append_single ps name v h

theorem active_after_add_self (ps1 : List (String × ProfileModel)) (name : String) :
    active_after_add (some name) ps1 name = some name := by
  show (if name = "" ∨ (plookup ps1 name).isNone = true then some name else some name)
        = some name
  split <;> rfl

theorem active_after_add_idem (a : Option String) (ps1 : List (String × ProfileModel))
    (name : String) :
    active_after_add (active_after_add a ps1 name) ps1 name
      = active_after_add a ps1 name := by
  cases a with
  | none =>
      exact active_after_add_self ps1 name
  | some s =>
      by_cases h : s = "" ∨ (plookup ps1 s).isNone = true
      · have h1 : active_after_add (some s) ps1 name = some name := by
          show (if s = "" ∨ (plookup ps1 s).isNone = true then some name else some s)
                = some name
          rw [if_pos h]
        rw [h1]
        exact active_after_add_self ps1 name
      · have h1 : active_after_add (some s) ps1 name = some s := by
          show (if s = "" ∨ (plookup ps1 s).isNone = true then some name else some s)
                = some s
          rw [if_neg h]
        rw [h1, h1]

/-- Claim C6: for every store state and every (name, token, location),
calling `add_or_update_profile` twice in succession with identical arguments
yields a profiles map and an active-profile pointer identical to those after
the first call — the second call is a no-op on the state. -/
theorem c6_add_or_update_profile_idempotent (d : ProfilesData)
    (name api_token location_id : String) :
    add_or_update_profile (add_or_update_profile d name api_token location_id)
        name api_token location_id
      = add_or_update_profile d name api_token location_id := by
  unfold add_or_update_profile
  rw [pupsert_idem]
  rw [active_after_add_idem]

theorem get_active_profile_name_spec (d : ProfilesData) (a : String)
    (h : get_active_profile_name d = some a) :
    d.active = some a ∧ a ≠ "" ∧ (plookup d.profiles a).isSome = true := by
  unfold get_active_profile_name at h
  split at h
  · rename_i s heq
    split at h
    · rename_i hcond
      injection h with hsa
      subst hsa
      exact ⟨heq, hcond.1, hcond.2⟩
    · cases h
  · cases h

theorem head?_perase_spec (ps : List (String × ProfileModel)) (n : String)
    (q : String × ProfileModel) (h : (perase ps n).head? = some q) :
    q.1 ≠ n ∧ plookup (perase ps n) q.1 = some q.2 := by
  cases hE : perase ps n with
  | nil => rw [hE] at h; cases h
  | cons q0 rest =>
      rw [hE] at h
      have hq : q0 = q := by injection h
      subst hq
      have hmem : q0 ∈ perase ps n := by rw [hE]; exact List.mem_cons_self q0 rest
      have hq1 : (q0.1 != n) = true := (List.mem_filter.mp hmem).2
      constructor
      · simpa using hq1
      · exact plookup_cons_self _ _ _ (by simp)

/-- Claim C4: reads of the active-profile pointer self-heal — a returned
active name always names a stored profile; and for every store in which
`name` is active, after `remove_profile name` the active pointer is `None`
or another still-existing profile name, never the removed name (and the
removal reports the previous active pointer). -/
theorem c4_active_pointer_invariant :
    (∀ (d : ProfilesData) (a : String), get_active_profile_name d = some a →
        (plookup d.profiles a).isSome = true) ∧
    (∀ (d : ProfilesData) (name : String) (dp : ProfilesData) (prev : Option String),
        get_active_profile_name d = some name →
        remove_profile d name = some (dp, prev) →
        prev = some name ∧
        dp.active ≠ some name ∧
        (∀ b, dp.active = some b → (plookup dp.profiles b).isSome = true) ∧
        get_active_profile_name dp ≠ some name) := by
  constructor
  · intro d a h
    exact (get_active_profile_name_spec d a h).2.2
  · intro d name dp prev h1 h2
    obtain ⟨hact, hne, hsome⟩ := get_active_profile_name_spec d name h1
    unfold remove_profile at h2
    rw [if_pos hsome] at h2
    rw [hact] at h2
    rw [if_pos rfl] at h2
    injection h2 with h2
    injection h2 with h2a h2b
    have hprev : prev = some name := by rw [← h2b]
    have hdp_active : dp.active = ((perase d.profiles name).head?).map Prod.fst := by
      rw [← h2a]
    have hdp_profiles : dp.profiles = perase d.profiles name := by
      rw [← h2a]
    refine ⟨hprev, ?_, ?_, ?_⟩
    · rw [hdp_active]
      cases hH : (perase d.profiles name).head? with
      | none => simp
      | some q =>
          have := (head?_perase_spec d.profiles name q hH).1
          simpa using this
    · intro b hb
      rw [hdp_active] at hb
      cases hH : (perase d.profiles name).head? with
      | none => rw [hH] at hb; cases hb
      | some q =>
          rw [hH] at hb
          injection hb with hb
          subst hb
          rw [hdp_profiles]
          rw [(head?_perase_spec d.profiles name q hH).2]
          rfl
    · intro hcontra
      have := (get_active_profile_name_spec dp name hcontra).1
      rw [hdp_active] at this
      cases hH : (perase d.profiles name).head? with
      | none => rw [hH] at this; cases this
      | some q =>
          rw [hH] at this
          injection this with this
          exact (head?_perase_spec d.profiles name q hH).1 this

theorem c4_active_pointer_invariant_witness :
    get_active_profile_name ⟨some "work", [("work", ⟨"t", "l"⟩), ("x", ⟨"u", "m"⟩)]⟩
        = some "work" ∧
    remove_profile ⟨some "work", [("work", ⟨"t", "l"⟩), ("x", ⟨"u", "m"⟩)]⟩ "work"
        = some (⟨some "x", [("x", ⟨"u", "m"⟩)]⟩, some "work") ∧
    (⟨some "x", [("x", ⟨"u", "m"⟩)]⟩ : ProfilesData).active ≠ some "work" ∧
    get_active_profile_name (⟨some "x", [("x", ⟨"u", "m"⟩)]⟩ : ProfilesData) ≠ some "work" :=
  ⟨by decide, by decide,
   (c4_active_pointer_invariant.2 ⟨some "work", [("work", ⟨"t", "l"⟩), ("x", ⟨"u", "m"⟩)]⟩
      "work" ⟨some "x", [("x", ⟨"u", "m"⟩)]⟩ (some "work") (by decide) (by decide)).2.1,
   (c4_active_pointer_invariant.2 ⟨some "work", [("work", ⟨"t", "l"⟩), ("x", ⟨"u", "m"⟩)]⟩
      "work" ⟨some "x", [("x", ⟨"u", "m"⟩)]⟩ (some "work") (by decide) (by decide)).2.2.2⟩

/-- Claim C7 (amended): `get_token` returns the truthy environment token
even when an active profile holds a different one; with no truthy
environment token it returns the active profile's token; with no active
profile it returns whatever `api_token` value a readable credentials file
holds — even `None`, short-circuiting the keyring — and only when the file
is missing or unreadable does it fall through to a truthy keyring value,
returning `None` when that also misses.  It never raises (it is a total
function of its sources). -/
theorem c7_get_token_precedence :
    (∀ (src : TokenSources) (d : ProfilesData) (t : String),
        src.env_token = some t → t ≠ "" → get_token src d = some t) ∧
    (∀ (src : TokenSources) (d : ProfilesData) (a : String) (p : ProfileModel),
        (src.env_token = none ∨ src.env_token = some "") →
        get_active_profile_name d = some a → plookup d.profiles a = some p →
        get_token src d = some p.api_token) ∧
    (∀ (src : TokenSources) (d : ProfilesData) (tok : Option String),
        (src.env_token = none ∨ src.env_token = some "") →
        get_active_profile_name d = none → src.cred = CredFile.readable tok →
        get_token src d = tok) ∧
    (∀ (src : TokenSources) (d : ProfilesData) (t : String),
        (src.env_token = none ∨ src.env_token = some "") →
        get_active_profile_name d = none →
        (src.cred = CredFile.absent ∨ src.cred = CredFile.unreadable) →
        src.keyring = KeyringState.value (some t) → t ≠ "" →
        get_token src d = some t) ∧
    (∀ (src : TokenSources) (d : ProfilesData),
        (src.env_token = none ∨ src.env_token = some "") →
        get_active_profile_name d = none →
        (src.cred = CredFile.absent ∨ src.cred = CredFile.unreadable) →
        (src.keyring = KeyringState.failure ∨ src.keyring = KeyringState.value none ∨
          src.keyring = KeyringState.value (some "")) →
        get_token src d = none) := by
  have henv : ∀ (src : TokenSources) (d : ProfilesData),
      (src.env_token = none ∨ src.env_token = some "") →
      get_token src d = get_token_after_env src d := by
    intro src d h
    unfold get_token
    rcases h with h | h <;> rw [h]
    simp
  have hprof : ∀ (src : TokenSources) (d : ProfilesData),
      get_active_profile_name d = none →
      get_token_after_env src d = get_token_tail src := by
    intro src d h
    unfold get_token_after_env
    rw [h]
  refine ⟨?_, ?_, ?_, ?_, ?_⟩
  · intro src d t h1 h2
    unfold get_token
    rw [h1]
    show (if t ≠ "" then some t else get_token_after_env src d) = some t
    rw [if_pos h2]
  · intro src d a p h1 h2 h3
    rw [henv src d h1]
    unfold get_token_after_env
    rw [h2]
    show (match plookup d.profiles a with
          | some p => some p.api_token
          | none => get_token_tail src) = some p.api_token
    rw [h3]
  · intro src d tok h1 h2 h3
    rw [henv src d h1, hprof src d h2]
    unfold get_token_tail
    rw [h3]
  · intro src d t h1 h2 h3 h4 h5
    rw [henv src d h1, hprof src d h2]
    unfold get_token_tail
    rcases h3 with h3 | h3 <;> rw [h3, h4] <;>
      · show (if t ≠ "" then some t else none) = some t
        rw [if_pos h5]
  · intro src d h1 h2 h3 h4
    rw [henv src d h1, hprof src d h2]
    unfold get_token_tail
    rcases h3 with h3 | h3 <;> rw [h3] <;>
      rcases h4 with h4 | h4 | h4 <;> rw [h4] <;> rfl

/-- Claim C7 counterexample: with no environment token, no active profile, a
credentials file that parses as an object without an `api_token` entry, and
a keyring holding the token "k", `get_token` returns `None` while the
spec's precedence chain (`get_token_spec`) would fall through to the keyring
and return "k" — the legacy file short-circuits the chain. -/
theorem c7_get_token_counterexample :
    get_token ⟨none, CredFile.readable none, KeyringState.value (some "k")⟩ ⟨none, []⟩
        = none ∧
    get_token_spec ⟨none, CredFile.readable none, KeyringState.value (some "k")⟩ ⟨none, []⟩
        = some "k" :=
  ⟨rfl, rfl⟩

theorem c7_get_token_precedence_witness :
    get_token ⟨some "env-tok", CredFile.absent, KeyringState.failure⟩
        ⟨some "p", [("p", ⟨"profile-tok", "loc"⟩)]⟩
      = some "env-tok" :=
  c7_get_token_precedence.1
    ⟨some "env-tok", CredFile.absent, KeyringState.failure⟩
    ⟨some "p", [("p", ⟨"profile-tok", "loc"⟩)]⟩
    "env-tok" rfl (by decide)

/-- Claim C8 (amended): a missing file, undecodable JSON, or a top-level
non-object document loads as the empty store (profiles) respectively the
default config, and loading never raises; within a top-level object, a falsy
`profiles` value also yields no profiles, and any config field of the wrong
shape yields the default config — but a truthy non-object `profiles` value
is kept as-is by `_load_profiles_data` rather than replaced by an empty
store. -/
theorem c8_malformed_files_load_as_empty :
    load_profiles_data FileState.absent = emptyProfilesData ∧
    load_profiles_data FileState.invalid = emptyProfilesData ∧
    load_config FileState.absent = defaultConfig ∧
    load_config FileState.invalid = defaultConfig ∧
    (∀ j : JValue, (∀ fs, j ≠ jobj fs) →
        load_profiles_data (FileState.valid j) = emptyProfilesData ∧
        load_config (FileState.valid j) = defaultConfig) ∧
    (∀ fs, jtruthy (pyGet fs "profiles") = false →
        load_profiles_data (FileState.valid (jobj fs)) = (pyGet fs "active", jobj [])) ∧
    (∀ fs, parse_config fs = none →
        load_config (FileState.valid (jobj fs)) = defaultConfig) := by
  refine ⟨rfl, rfl, rfl, rfl, ?_, ?_, ?_⟩
  · intro j hj
    cases j with
    | jobj fs => exact absurd rfl (hj fs)
    | jnull => exact ⟨rfl, rfl⟩
    | jbool b => exact ⟨rfl, rfl⟩
    | jnum n => exact ⟨rfl, rfl⟩
    | jstr s => exact ⟨rfl, rfl⟩
    | jarr xs => exact ⟨rfl, rfl⟩
  · intro fs h
    show (pyGet fs "active",
          if jtruthy (pyGet fs "profiles") = true then pyGet fs "profiles" else jobj [])
        = (pyGet fs "active", jobj [])
    rw [h]
    simp
  · intro fs h
    show (parse_config fs).getD defaultConfig = defaultConfig
    rw [h]
    rfl

/-- Claim C8 counterexample: the profiles file
`\x7b"active": null, "profiles": [1]\x7d` is valid JSON of an unexpected
shape, yet `_load_profiles_data` keeps the truthy non-object `profiles`
value `[1]` instead of treating the file as an empty store. -/
theorem c8_malformed_files_counterexample :
    load_profiles_data (FileState.valid (jobj [("active", jnull), ("profiles", jarr [jnum 1])]))
        = (jnull, jarr [jnum 1]) ∧
    jarr [jnum 1] ≠ jobj [] ∧
    (jnull, jarr [jnum 1]) ≠ emptyProfilesData := by
  refine ⟨rfl, ?_, ?_⟩
  · intro h
    cases h
  · intro h
    have h2 : jarr [jnum 1] = jobj [] := congrArg Prod.snd h
    cases h2

theorem c8_malformed_files_load_as_empty_witness :
    load_profiles_data (FileState.valid (jarr [jnum 1])) = emptyProfilesData ∧
    load_config (FileState.valid (jarr [jnum 1])) = defaultConfig ∧
    load_profiles_data (FileState.valid (jobj [("active", jstr "a"), ("profiles", jnull)]))
        = (jstr "a", jobj []) ∧
    load_config (FileState.valid (jobj [("location_id", jnum 5)])) = defaultConfig :=
  ⟨(c8_malformed_files_load_as_empty.2.2.2.2.1 (jarr [jnum 1]) (fun fs h => by cases h)).1,
   (c8_malformed_files_load_as_empty.2.2.2.2.1 (jarr [jnum 1]) (fun fs h => by cases h)).2,
   c8_malformed_files_load_as_empty.2.2.2.2.2.1 [("active", jstr "a"), ("profiles", jnull)]
     (by rfl),
   c8_malformed_files_load_as_empty.2.2.2.2.2.2 [("location_id", jnum 5)] (by rfl)⟩

theorem wait_time_none (rli : RateLimitInfo) (now : ℚ) (ht : rli.reset = none) :
    wait_time rli now = (rli.interval_ms : ℚ) / 1000 := by
  unfold wait_time
  rw [ht]

theorem wait_time_some (rli : RateLimitInfo) (now t : ℚ) (ht : rli.reset = some t) :
    wait_time rli now
      = if t ≠ 0 then max ((rli.interval_ms : ℚ) / 1000) (t - now)
        else (rli.interval_ms : ℚ) / 1000 := by
  unfold wait_time
  rw [ht]

theorem wait_time_ge_interval (rli : RateLimitInfo) (now : ℚ) :
    (rli.interval_ms : ℚ) / 1000 ≤ wait_time rli now := by
  cases hr : rli.reset with
  | none =>
      rw [wait_time_none rli now hr]
  | some t =>
      rw [wait_time_some rli now t hr]
      split
      · exact le_max_left ((rli.interval_ms : ℚ) / 1000) (t - now)
      · exact le_refl ((rli.interval_ms : ℚ) / 1000)

theorem wait_time_ge_reset (rli : RateLimitInfo) (now t : ℚ) (ht : rli.reset = some t)
    (h0 : t ≠ 0) : t - now ≤ wait_time rli now := by
  rw [wait_time_some rli now t ht, if_pos h0]
  exact le_max_right ((rli.interval_ms : ℚ) / 1000) (t - now)

theorem handle_rate_limit_tail_429_spec (st1 : Option RateLimitInfo) (resp : Response)
    (now : ℚ) (h429 : resp.status = 429)
    (hraise : (handle_rate_limit_tail st1 resp now).raised = false) :
    ∃ rli, effective_rli429 st1 resp = some rli ∧
      (handle_rate_limit_tail st1 resp now).st = st1 ∧
      (handle_rate_limit_tail st1 resp now).sleep = wait_time rli now + 1/10 := by
  cases hE : effective_rli429 st1 resp with
  | none =>
      have hbad : handle_rate_limit_tail st1 resp now = ⟨st1, 0, true⟩ := by
        unfold handle_rate_limit_tail
        rw [if_pos h429, hE]
      rw [hbad] at hraise
      cases hraise
  | some rli =>
      have heq : handle_rate_limit_tail st1 resp now = ⟨st1, wait_time rli now + 1/10, false⟩ := by
        unfold handle_rate_limit_tail
        rw [if_pos h429, hE]
      exact ⟨rli, rfl, by rw [heq], by rw [heq]⟩

theorem handle_rate_limit_429_spec (st : Option RateLimitInfo) (resp : Response) (now : ℚ)
    (h429 : resp.status = 429)
    (hraise : (handle_rate_limit st resp now).raised = false) :
    ∃ rli, effective_rli429 (handle_rate_limit st resp now).st resp = some rli ∧
      (handle_rate_limit st resp now).sleep = wait_time rli now + 1/10 := by
  cases hH : has_rate_limit_headers resp.headers with
  | false =>
      have hgoal : handle_rate_limit st resp now = handle_rate_limit_tail st resp now := by
        unfold handle_rate_limit
        rw [hH]
        rfl
      rw [hgoal] at hraise ⊢
      obtain ⟨rli, h1, h2, h3⟩ := handle_rate_limit_tail_429_spec st resp now h429 hraise
      exact ⟨rli, by rw [h2, h1], h3⟩
  | true =>
      cases hF : from_headers resp.headers with
      | none =>
          have hgoal : handle_rate_limit st resp now = ⟨st, 0, true⟩ := by
            unfold handle_rate_limit
            rw [hH, hF]
            rfl
          rw [hgoal] at hraise
          cases hraise
      | some r =>
          have hgoal : handle_rate_limit st resp now = handle_rate_limit_tail (some r) resp now := by
            unfold handle_rate_limit
            rw [hH, hF]
            rfl
          rw [hgoal] at hraise ⊢
          obtain ⟨rli, h1, h2, h3⟩ := handle_rate_limit_tail_429_spec (some r) resp now h429 hraise
          exact ⟨rli, by rw [h2, h1], h3⟩

theorem effective_rli429_isSome (st1 : Option RateLimitInfo) (resp : Response)
    (h : (from_headers resp.headers).isSome = true) :
    (effective_rli429 st1 resp).isSome = true := by
  cases st1 with
  | none => exact h
  | some r => rfl

theorem handle_rate_limit_tail_not_raised (st1 : Option RateLimitInfo) (resp : Response)
    (now : ℚ) (h : (effective_rli429 st1 resp).isSome = true) :
    (handle_rate_limit_tail st1 resp now).raised = false := by
  unfold handle_rate_limit_tail
  split
  · cases hE : effective_rli429 st1 resp with
    | none => rw [hE] at h; cases h
    | some rli => rfl
  · cases st1 <;> rfl

theorem handle_rate_limit_tail_not_raised_ne429 (st1 : Option RateLimitInfo)
    (resp : Response) (now : ℚ) (h : resp.status ≠ 429) :
    (handle_rate_limit_tail st1 resp now).raised = false := by
  unfold handle_rate_limit_tail
  rw [if_neg h]
  cases st1 <;> rfl

theorem hrl_not_raised_of_isSome (st : Option RateLimitInfo) (resp : Response) (now : ℚ)
    (h : (from_headers resp.headers).isSome = true) :
    (handle_rate_limit st resp now).raised = false := by
  unfold handle_rate_limit
  split
  · cases hF : from_headers resp.headers with
    | none => rw [hF] at h; cases h
    | some r =>
        exact handle_rate_limit_tail_not_raised (some r) resp now rfl
  · exact handle_rate_limit_tail_not_raised st resp now (effective_rli429_isSome st resp h)

theorem hrl_not_raised_ne429 (st : Option RateLimitInfo) (resp : Response) (now : ℚ)
    (h : resp.status ≠ 429)
    (hok : has_rate_limit_headers resp.headers = true →
      (from_headers resp.headers).isSome = true) :
    (handle_rate_limit st resp now).raised = false := by
  unfold handle_rate_limit
  split
  · rename_i hh
    cases hF : from_headers resp.headers with
    | none =>
        have := hok hh
        rw [hF] at this
        cases this
    | some r =>
        exact handle_rate_limit_tail_not_raised_ne429 (some r) resp now h
  · exact handle_rate_limit_tail_not_raised_ne429 st resp now h

theorem response_out_false_eq (resp : Response) :
    response_out resp false
      = if resp.status = 429 then HROut.err err429
        else if resp.status ≥ 400 then
          HROut.err ⟨resp.status, (error_message_body resp).1, (error_message_body resp).2⟩
        else if resp.status = 204 then HROut.ok (jobj [])
        else match resp.body with
          | some v => HROut.ok v
          | none => HROut.ok (jobj [("text", jstr resp.text)]) := by
  rfl

theorem response_out_true_eq (resp : Response) : response_out resp true = HROut.pyerr := by
  rfl

theorem response_out_false_ne_pyerr (resp : Response) :
    response_out resp false ≠ HROut.pyerr := by
  rw [response_out_false_eq]
  split
  · intro h; cases h
  · split
    · intro h; cases h
    · split
      · intro h; cases h
      · split <;> (intro h; cases h)

theorem handle_response_out_ne_pyerr (st : Option RateLimitInfo) (resp : Response) (now : ℚ)
    (hok : (from_headers resp.headers).isSome = true) :
    (handle_response st resp now).out ≠ HROut.pyerr := by
  rw [handle_response_out, hrl_not_raised_of_isSome st resp now hok]
  exact response_out_false_ne_pyerr resp

theorem handle_response_out_429 (st : Option RateLimitInfo) (resp : Response) (now : ℚ)
    (h429 : resp.status = 429) (hok : (from_headers resp.headers).isSome = true) :
    (handle_response st resp now).out = HROut.err err429 := by
  rw [handle_response_out, hrl_not_raised_of_isSome st resp now hok]
  rw [response_out_false_eq]
  rw [if_pos h429]

theorem handle_response_out_err (st : Option RateLimitInfo) (resp : Response) (now : ℚ)
    (hge : resp.status ≥ 400) (hne : resp.status ≠ 429)
    (hok : has_rate_limit_headers resp.headers = true →
      (from_headers resp.headers).isSome = true) :
    (handle_response st resp now).out
      = HROut.err ⟨resp.status, (error_message_body resp).1, (error_message_body resp).2⟩ := by
  rw [handle_response_out, hrl_not_raised_ne429 st resp now hne hok]
  rw [response_out_false_eq]
  rw [if_neg hne, if_pos hge]

theorem request_aux_ne_exhausted (oracle : Nat → Response × ℚ) (maxr : Nat) :
    ∀ (fuel attempt : Nat) (st : Option RateLimitInfo) (n : Nat) (sleeps : List ℚ),
      1 ≤ fuel → attempt + fuel = maxr →
      (request_aux oracle maxr attempt fuel st n sleeps).outcome ≠ ReqOutcome.exhausted := by
  intro fuel
  induction fuel with
  | zero =>
      intro attempt st n sleeps h1 h2
      omega
  | succ f ih =>
      intro attempt st n sleeps h1 h2
      simp only [request_aux]
      split
      · intro h; cases h
      · intro h; cases h
      · rename_i e heq
        split
        · rename_i hc
          exact ih (attempt + 1) _ (n + 1) _ (by omega) (by omega)
        · intro h; cases h

theorem request_aux_ok_or_err (oracle : Nat → Response × ℚ) (maxr : Nat)
    (hok : ∀ i, (from_headers (oracle i).1.headers).isSome = true) :
    ∀ (fuel attempt : Nat) (st : Option RateLimitInfo) (n : Nat) (sleeps : List ℚ),
      1 ≤ fuel → attempt + fuel = maxr →
      (∃ v, (request_aux oracle maxr attempt fuel st n sleeps).outcome = ReqOutcome.ok v) ∨
      (∃ e, (request_aux oracle maxr attempt fuel st n sleeps).outcome
              = ReqOutcome.apiError e) := by
  intro fuel
  induction fuel with
  | zero =>
      intro attempt st n sleeps h1 h2
      omega
  | succ f ih =>
      intro attempt st n sleeps h1 h2
      simp only [request_aux]
      split
      · rename_i heq
        exact absurd heq
          (handle_response_out_ne_pyerr st (oracle attempt).1 (oracle attempt).2 (hok attempt))
      · rename_i v heq
        exact Or.inl ⟨v, rfl⟩
      · rename_i e heq
        split
        · rename_i hc
          exact ih (attempt + 1) _ (n + 1) _ (by omega) (by omega)
        · exact Or.inr ⟨e, rfl⟩

theorem request_aux_all_429 (oracle : Nat → Response × ℚ) (maxr : Nat)
    (h429 : ∀ i, (oracle i).1.status = 429)
    (hok : ∀ i, (from_headers (oracle i).1.headers).isSome = true) :
    ∀ (fuel attempt : Nat) (st : Option RateLimitInfo) (n : Nat) (sleeps : List ℚ),
      1 ≤ fuel → attempt + fuel = maxr →
      (request_aux oracle maxr attempt fuel st n sleeps).attempts = n + fuel ∧
      (request_aux oracle maxr attempt fuel st n sleeps).outcome
        = ReqOutcome.apiError err429 := by
  intro fuel
  induction fuel with
  | zero =>
      intro attempt st n sleeps h1 h2
      omega
  | succ f ih =>
      intro attempt st n sleeps h1 h2
      have hr : (handle_response st (oracle attempt).1 (oracle attempt).2).out
          = HROut.err err429 :=
        handle_response_out_429 st (oracle attempt).1 (oracle attempt).2
          (h429 attempt) (hok attempt)
      simp only [request_aux]
      split
      · rename_i heq
        rw [hr] at heq
        cases heq
      · rename_i v heq
        rw [hr] at heq
        cases heq
      · rename_i e heq
        rw [hr] at heq
        injection heq with he
        subst he
        by_cases hatt : (attempt : Int) < (maxr : Int) - 1
        · rw [if_pos ⟨rfl, hatt⟩]
          have hih := ih (attempt + 1)
            (handle_response st (oracle attempt).1 (oracle attempt).2).st (n + 1)
            ((handle_response st (oracle attempt).1 (oracle attempt).2).sleep :: sleeps)
            (by omega) (by omega)
          exact ⟨by rw [hih.1]; omega, hih.2⟩
        · rw [if_neg (fun hc => hatt hc.2)]
          have hf : f = 0 := by omega
          constructor
          · show n + 1 = n + (f + 1)
            omega
          · rfl

/-- Claim C2: for every 429 response handled without a header-parse
exception, the client sleeps exactly the computed wait plus the 0.1s buffer,
where the wait is at least `interval_ms/1000` and at least `reset - now`
when a nonzero reset is tracked, and a typed 429 `APIError` is raised; and a
`request` whose attempts all receive parseable 429 responses makes exactly
`max_retries` attempts and then raises the typed 429 error to the caller,
with no further attempt. -/
theorem c2_429_sleep_retry_and_raise :
    (∀ (st : Option RateLimitInfo) (resp : Response) (now : ℚ),
        resp.status = 429 →
        (handle_response st resp now).out ≠ HROut.pyerr →
        ∃ rli, effective_rli429 (handle_response st resp now).st resp = some rli ∧
          (handle_response st resp now).sleep = wait_time rli now + 1/10 ∧
          (rli.interval_ms : ℚ) / 1000 ≤ wait_time rli now ∧
          (∀ t, rli.reset = some t → t ≠ 0 → t - now ≤ wait_time rli now) ∧
          (handle_response st resp now).out = HROut.err err429) ∧
    (∀ (oracle : Nat → Response × ℚ) (n : Nat),
        1 ≤ n →
        (∀ i, (oracle i).1.status = 429) →
        (∀ i, (from_headers (oracle i).1.headers).isSome = true) →
        (request oracle n).attempts = n ∧
        (request oracle n).outcome = ReqOutcome.apiError err429) := by
  constructor
  · intro st resp now h429 hnp
    have hraise : (handle_rate_limit st resp now).raised = false := by
      cases hb : (handle_rate_limit st resp now).raised
      · rfl
      · exfalso
        apply hnp
        rw [handle_response_out, hb]
        exact response_out_true_eq resp
    obtain ⟨rli, h1, h2⟩ := handle_rate_limit_429_spec st resp now h429 hraise
    refine ⟨rli, ?_, ?_, wait_time_ge_interval rli now, ?_, ?_⟩
    · rw [handle_response_st]
      exact h1
    · rw [handle_response_sleep]
      exact h2
    · intro t ht h0
      exact wait_time_ge_reset rli now t ht h0
    · rw [handle_response_out, hraise, response_out_false_eq, if_pos h429]
  · intro oracle n h1 h429 hok
    have hall := request_aux_all_429 oracle n h429 hok n 0 none 0 [] h1 (by omega)
    constructor
    · show (request_aux oracle n 0 n none 0 []).attempts = n
      rw [hall.1]
      omega
    · exact hall.2

theorem c2_429_sleep_retry_and_raise_witness :
    (∃ rli, effective_rli429
        (handle_response none ⟨429, [("x-ratelimit-max", "10")], none, ""⟩ 0).st
        ⟨429, [("x-ratelimit-max", "10")], none, ""⟩ = some rli ∧
      (handle_response none ⟨429, [("x-ratelimit-max", "10")], none, ""⟩ 0).sleep
        = wait_time rli 0 + 1/10 ∧
      (rli.interval_ms : ℚ) / 1000 ≤ wait_time rli 0 ∧
      (∀ t, rli.reset = some t → t ≠ 0 → t - 0 ≤ wait_time rli 0) ∧
      (handle_response none ⟨429, [("x-ratelimit-max", "10")], none, ""⟩ 0).out
        = HROut.err err429) ∧
    (request (fun _ => (⟨429, [("x-ratelimit-max", "10")], none, ""⟩, 0)) 3).attempts = 3 ∧
    (request (fun _ => (⟨429, [("x-ratelimit-max", "10")], none, ""⟩, 0)) 3).outcome
      = ReqOutcome.apiError err429 :=
  ⟨c2_429_sleep_retry_and_raise.1 none ⟨429, [("x-ratelimit-max", "10")], none, ""⟩ 0 rfl
     (fun h => by cases h),
   c2_429_sleep_retry_and_raise.2 (fun _ => (⟨429, [("x-ratelimit-max", "10")], none, ""⟩, 0)) 3
     (by omega) (fun i => rfl) (fun i => rfl)⟩

/-- Claim C9: for every call to `request` with `max_retries ≥ 1` the retry
loop terminates by returning or raising — the trailing exhausted-retries
branch after the loop is never reached; and when the rate-limit headers of
every received response parse, the outcome is a returned result or a typed
`APIError`. -/
theorem c9_retry_loop_never_exhausted :
    (∀ (oracle : Nat → Response × ℚ) (n : Nat), 1 ≤ n →
        (request oracle n).outcome ≠ ReqOutcome.exhausted) ∧
    (∀ (oracle : Nat → Response × ℚ) (n : Nat), 1 ≤ n →
        (∀ i, (from_headers (oracle i).1.headers).isSome = true) →
        (∃ v, (request oracle n).outcome = ReqOutcome.ok v) ∨
        (∃ e, (request oracle n).outcome = ReqOutcome.apiError e)) := by
  constructor
  · intro oracle n h1
    exact request_aux_ne_exhausted oracle n n 0 none 0 [] h1 (by omega)
  · intro oracle n h1 hok
    exact request_aux_ok_or_err oracle n hok n 0 none 0 [] h1 (by omega)

theorem c9_retry_loop_never_exhausted_witness :
    (request (fun _ => (⟨200, [], some (jobj []), ""⟩, 0)) 1).outcome
        ≠ ReqOutcome.exhausted ∧
    ((∃ v, (request (fun _ => (⟨200, [], some (jobj []), ""⟩, 0)) 1).outcome
          = ReqOutcome.ok v) ∨
     (∃ e, (request (fun _ => (⟨200, [], some (jobj []), ""⟩, 0)) 1).outcome
          = ReqOutcome.apiError e)) :=
  ⟨c9_retry_loop_never_exhausted.1 (fun _ => (⟨200, [], some (jobj []), ""⟩, 0)) 1 (by omega),
   c9_retry_loop_never_exhausted.2 (fun _ => (⟨200, [], some (jobj []), ""⟩, 0)) 1 (by omega)
     (fun i => rfl)⟩

/-- Claim C3 (amended): for every call to `request` whose first response has
a non-429 status ≥ 400 (with parseable rate-limit headers, if any), exactly
one HTTP attempt is made and a typed `APIError` is raised carrying that
original status code, the message/body computed by `error_message_body`;
the message is the body's truthy `message` field when present, and for an
unparseable body it is the raw response text when nonempty (else
`"HTTP <status>"`); a parsed JSON object without truthy `message`/`error`
fields yields the Python string rendering of the parsed body, not the raw
text. -/
theorem c3_non429_error_single_attempt :
    (∀ (oracle : Nat → Response × ℚ) (n : Nat),
        1 ≤ n → (oracle 0).1.status ≥ 400 → (oracle 0).1.status ≠ 429 →
        (has_rate_limit_headers (oracle 0).1.headers = true →
          (from_headers (oracle 0).1.headers).isSome = true) →
        (request oracle n).attempts = 1 ∧
        (request oracle n).outcome = ReqOutcome.apiError
          ⟨(oracle 0).1.status, (error_message_body (oracle 0).1).1,
           (error_message_body (oracle 0).1).2⟩) ∧
    (∀ fs, json_error_message (jobj fs)
        = some (pyOr (pyGet fs "message")
            (pyOr (pyGet fs "error") (jstr (pyRepr (jobj fs)))))) ∧
    (∀ fs v, jget fs "message" = some v → jtruthy v = true →
        json_error_message (jobj fs) = some v) ∧
    (∀ resp : Response, resp.body = none → resp.text ≠ "" →
        error_message_body resp = (jstr resp.text, none)) ∧
    (∀ resp : Response, resp.body = none → resp.text = "" →
        error_message_body resp = (jstr ("HTTP " ++ toString resp.status), none)) := by
  have hJ : ∀ fs, json_error_message (jobj fs)
      = some (pyOr (pyGet fs "message")
          (pyOr (pyGet fs "error") (jstr (pyRepr (jobj fs))))) := by
    intro fs
    cases fs <;> rfl
  refine ⟨?_, hJ, ?_, ?_, ?_⟩
  · intro oracle n h1 hge hne hok
    obtain ⟨m, rfl⟩ : ∃ m, n = m + 1 := ⟨n - 1, by omega⟩
    have hr : (handle_response none (oracle 0).1 (oracle 0).2).out
        = HROut.err ⟨(oracle 0).1.status, (error_message_body (oracle 0).1).1,
            (error_message_body (oracle 0).1).2⟩ :=
      handle_response_out_err none (oracle 0).1 (oracle 0).2 hge hne hok
    simp only [request, request_aux]
    split
    · rename_i heq
      rw [hr] at heq
      cases heq
    · rename_i v heq
      rw [hr] at heq
      cases heq
    · rename_i e heq
      rw [hr] at heq
      injection heq with he
      subst he
      rw [if_neg (fun hc => hne hc.1)]
      exact ⟨rfl, rfl⟩
  · intro fs v hget htr
    have h2 : pyGet fs "message" = v := by
      unfold pyGet
      rw [hget]
      rfl
    rw [hJ fs, h2]
    unfold pyOr
    rw [htr]
    rfl
  · intro resp hb ht
    unfold error_message_body
    rw [hb]
    show (text_fallback resp, (none : Option JValue)) = (jstr resp.text, none)
    unfold text_fallback
    rw [if_neg ht]
  · intro resp hb ht
    unfold error_message_body
    rw [hb]
    show (text_fallback resp, (none : Option JValue)) = (jstr ("HTTP " ++ toString resp.status), none)
    unfold text_fallback
    rw [if_pos ht]

/-- Claim C3 counterexample: a 400 response whose body parses as the JSON
object `\x7b"a": 1\x7d` (raw text `\x7b"a": 1\x7d`) raises an `APIError`
whose message is the Python rendering `\x7b\x27a\x27: 1\x7d` of the parsed
body — which is neither a `message`/`error` field of the body (there are
none) nor the raw response text — refuting the claim's description of the
message, though exactly one attempt is made and the status and parsed body
are carried. -/
theorem c3_non429_error_counterexample :
    (request (fun _ => (⟨400, [], some (jobj [("a", jnum 1)]), "\x7b\"a\": 1\x7d"⟩, 0)) 3).outcome
        = ReqOutcome.apiError
            ⟨400, jstr "\x7b\x27a\x27: 1\x7d", some (jobj [("a", jnum 1)])⟩ ∧
    "\x7b\x27a\x27: 1\x7d" ≠ "\x7b\"a\": 1\x7d" ∧
    jget [("a", jnum 1)] "message" = none ∧
    jget [("a", jnum 1)] "error" = none ∧
    (request (fun _ => (⟨400, [], some (jobj [("a", jnum 1)]), "\x7b\"a\": 1\x7d"⟩, 0)) 3).attempts
        = 1 :=
  ⟨rfl, by decide, rfl, rfl, rfl⟩

theorem c3_non429_error_single_attempt_witness :
    (request (fun _ => (⟨500, [], none, "boom"⟩, 0)) 3).attempts = 1 ∧
    (request (fun _ => (⟨500, [], none, "boom"⟩, 0)) 3).outcome
      = ReqOutcome.apiError
          ⟨500, (error_message_body ⟨500, [], none, "boom"⟩).1,
           (error_message_body ⟨500, [], none, "boom"⟩).2⟩ :=
  c3_non429_error_single_attempt.1 (fun _ => (⟨500, [], none, "boom"⟩, 0)) 3
    (by omega) (by decide) (by decide) (by decide)
